import Mathlib

/-!
Verification development for the `instagram_project` repository.

Shallow embedding of the comment-creation core:
- `app/services/instagram_client.py` — the external client adapter
  (`InstagramClient._handle_response`, `InstagramClient.create_comment`);
- `app/services/comment_service.py` — the orchestration service
  (`CommentService.create_comment`);
- `app/views/__init__.py` — the request boundary (`CommentCreateView.post`);
- `app/serializers/__init__.py` — input validation (`CreateCommentSerializer`);
- `config/settings.py` — the configuration values the adapter consumes.

External effects (HTTP transport, database writes) are made explicit:
the single outbound HTTP call's outcome is a parameter (`NetworkResult`)
and the database is threaded as an explicit state (`DB`).  Timestamps
(`created_at`, set by `auto_now_add`) are real-time values and are not
modelled; no property below depends on them.
-/

namespace InstagramProject

/-- JSON values, as produced by `response.json()` and carried in request
bodies.  Numbers are modelled as integers (no property here involves
fractional JSON numbers). -/
inductive Json where
  | null
  | bool (b : Bool)
  | num (n : Int)
  | str (s : String)
  | arr (elems : List Json)
  | obj (fields : List (String × Json))
deriving Repr

/-- `d.get(k)` on a parsed JSON dict: the value at the first matching key,
`none` when the key is absent or the value is not a dict. -/
def Json.jget (j : Json) (k : String) : Option Json :=
  match j with
  | .obj fields => (fields.find? (fun p => p.1 == k)).map Prod.snd
  | _ => none

/-- `k in d` on a parsed JSON dict.  The Python code only ever applies
`in` to dict-shaped bodies; non-dict values are modelled as having no
keys. -/
def Json.hasKey (j : Json) (k : String) : Bool :=
  match j with
  | .obj fields => fields.any (fun p => p.1 == k)
  | _ => false

/-- Python `str()` of a JSON value, as applied implicitly when an error
message is formatted.  The adapter only renders messages that are JSON
strings in practice; container rendering is abbreviated and no property
below depends on it. -/
def pyStr : Json → String
  | .null => "None"
  | .bool true => "True"
  | .bool false => "False"
  | .num n => toString n
  | .str s => s
  | .arr _ => "[...]"
  | .obj _ => "\x7b...\x7d"

/-- Python `==` between a JSON value and an integer literal: true for the
equal integer, with Python booleans comparing equal to `0`/`1`. -/
def pyEqInt (j : Json) (n : Int) : Bool :=
  match j with
  | .num m => m == n
  | .bool b => (if b then (1 : Int) else 0) == n
  | _ => false

/-- A `requests.Response`: transport status, raw body text, and the result
of `response.json()` (`none` models the `ValueError` raised on a non-JSON
body). -/
structure HttpResponse where
  status_code : Int
  text : String
  json : Option Json
deriving Repr

/-- `response.ok` from the `requests` library: `False` exactly when
`raise_for_status` would raise, i.e. for 4xx and 5xx status codes. -/
def HttpResponse.ok (r : HttpResponse) : Bool :=
  if 400 ≤ r.status_code ∧ r.status_code < 600 then false else true

/-- The exceptions the flow can raise.
`mediaNotFound` (`MediaNotFoundError`) is a subclass of
`apiError` (`InstagramAPIError`) in the source; `keyError` models
Python's built-in `KeyError` from an unguarded dict lookup and is
outside the `InstagramAPIError` hierarchy, as is
`postNotFound` (`PostNotFoundError`).  The generic error's
`status_code` comes from `error.get("code", response.status_code)` and
so is an arbitrary JSON value; the constructor default `status_code=0`
is `Json.num 0`. -/
inductive PyError where
  | postNotFound (msg : String)
  | mediaNotFound (msg : String) (status_code : Int)
  | apiError (msg : String) (status_code : Json)
  | keyError (key : String)
deriving Repr

/-- `isinstance(e, InstagramAPIError)`: true for the generic error and
its `MediaNotFoundError` subclass only. -/
def PyError.isInstagramAPIError : PyError → Bool
  | .mediaNotFound _ _ => true
  | .apiError _ _ => true
  | _ => false

/-- `InstagramClient._handle_response`: parse the body, and normalise
transport-level and application-level failures into the typed error
hierarchy.  The error branch is taken when the transport status is not
ok OR the body carries an `error` key; inside it, a missing `code`
defaults to the HTTP status code and a missing `error_subcode` defaults
to `0`; the pair code `100` / subcode `33` maps to `MediaNotFoundError`
with status 404. -/
def handle_response (response : HttpResponse) (media_id : String) :
    Except PyError Json :=
  match response.json with
  | none =>
      let sc := response.status_code
      .error (.apiError s!"Invalid JSON response from Instagram API (status={sc})"
        (.num 0))
  | some data =>
      if !response.ok || data.hasKey "error" then
        let error := (data.jget "error").getD (.obj [])
        let error_message : String :=
          match error.jget "message" with
          | some v => pyStr v
          | none => response.text
        let error_code : Json := (error.jget "code").getD (.num response.status_code)
        let error_subcode : Json := (error.jget "error_subcode").getD (.num 0)
        if pyEqInt error_code 100 && pyEqInt error_subcode 33 then
          .error (.mediaNotFound
            ("Instagram media \x27" ++ media_id ++ "\x27 was not found") 404)
        else
          .error (.apiError error_message error_code)
      else
        .ok data

/-- The outcome of the single outbound `requests.post` call:
either a `requests.RequestException` carrying a message, or an HTTP
response. -/
inductive NetworkResult where
  | exn (msg : String)
  | resp (r : HttpResponse)
deriving Repr

/-- `InstagramClient.create_comment`, with the transport outcome passed
explicitly: a `RequestException` is wrapped into the generic
`InstagramAPIError` (default status, i.e. no remote code); a response is
normalised by `_handle_response`. -/
def client_create_comment (net : NetworkResult) (media_id : String) :
    Except PyError Json :=
  match net with
  | .exn msg =>
      .error (.apiError ("Network error while calling Instagram API: " ++ msg)
        (.num 0))
  | .resp r => handle_response r media_id

/-- A `Post` row (`app/models/__init__.py`): primary key, the unique
Instagram media id, and the caption.  `created_at` (real time) is not
modelled. -/
structure Post where
  pk : Nat
  instagram_id : String
  caption : String
deriving Repr

/-- A `Comment` row (`app/models/__init__.py`): primary key, foreign key
to the owning `Post`, the remote comment id exactly as taken from the
gateway response body, and the text.  `created_at` (real time) is not
modelled. -/
structure Comment where
  pk : Nat
  post_pk : Nat
  instagram_comment_id : Json
  text : String
deriving Repr

/-- The relational store: the `posts` and `comments` tables, plus the
auto-increment counter backing `Comment` primary keys. -/
structure DB where
  posts : List Post
  comments : List Comment
  next_comment_pk : Nat
deriving Repr

/-- `Post.objects.get(pk=post_id)` as an optional lookup: the row whose
primary key matches, if any (primary keys are unique in the store). -/
def findPost (db : DB) (post_id : Nat) : Option Post :=
  db.posts.find? (fun p => p.pk == post_id)

/-- Result of one `CommentService.create_comment` run: the returned
comment or the raised exception, the database after the run, and whether
the adapter (the single remote call) was invoked. -/
structure ServiceOutcome where
  result : Except PyError Comment
  db : DB
  remoteCalled : Bool
deriving Repr

/-- `CommentService.create_comment`:
1. look up the `Post` locally, raising `PostNotFoundError` when absent
   (no remote call);
2. publish via the adapter, any adapter error propagating unchanged;
3. on adapter success read `api_response["id"]` — an unguarded dict
   lookup, so a success body without an `id` key raises Python's
   `KeyError` — and persist exactly one new `Comment` row. -/
def service_create_comment (db : DB) (net : NetworkResult) (post_id : Nat)
    (text : String) : ServiceOutcome :=
  match findPost db post_id with
  | none =>
      { result := .error (.postNotFound s!"Post with id={post_id} not found"),
        db := db, remoteCalled := false }
  | some post =>
      match client_create_comment net post.instagram_id with
      | .error e => { result := .error e, db := db, remoteCalled := true }
      | .ok api_response =>
          match api_response.jget "id" with
          | none =>
              { result := .error (.keyError "id"), db := db, remoteCalled := true }
          | some instagram_comment_id =>
              let comment : Comment :=
                { pk := db.next_comment_pk, post_pk := post.pk,
                  instagram_comment_id := instagram_comment_id, text := text }
              let db2 : DB :=
                { db with
                  comments := db.comments ++ [comment],
                  next_comment_pk := db.next_comment_pk + 1 }
              { result := .ok comment, db := db2, remoteCalled := true }

/-- Python `str.strip()` with no argument, as applied by DRF's
`CharField` with its default `trim_whitespace=True`: remove leading and
trailing whitespace.  `Char.isWhitespace` covers the ASCII whitespace
subset of Python's definition; the two agree on every input considered
below. -/
def pyStrip (s : String) : String :=
  String.mk (((s.data.dropWhile Char.isWhitespace).reverse.dropWhile
    Char.isWhitespace).reverse)

/-- The blank test at the top of `CharField.run_validation`:
`data == '' or (self.trim_whitespace and str(data).strip() == '')`.
Only a string value can test blank — `str()` of a number, boolean, null
or container never strips to the empty string. -/
def isBlankInput (data : Json) : Bool :=
  match data with
  | .str s => s == "" || pyStrip s == ""
  | _ => false

/-- The field's validators `MinLengthValidator(1)` and
`MaxLengthValidator(2200)`, run by DRF on the internal value — i.e. on
the already-stripped string. -/
def run_length_validators (value : String) :
    Except (List (String × List String)) String :=
  if value.length < 1 then
    .error [("text", ["Ensure this field has at least 1 characters."])]
  else if 2200 < value.length then
    .error [("text", ["Ensure this field has no more than 2200 characters."])]
  else
    .ok value

/-- `CreateCommentSerializer` (`app/serializers/__init__.py`):
`text = CharField(min_length=1, max_length=2200)`, a required field with
DRF's `CharField` defaults `trim_whitespace=True` and
`allow_blank=False`.  Validation order follows DRF: a non-dict payload
fails with `Invalid data.`; a missing key fails `required`; then
`CharField.run_validation` rejects values that are or strip to the empty
string as blank; `None` fails the null check; `to_internal_value`
rejects booleans and containers, coerces numerics with `str()` and
strips the result; finally the length validators run on the stripped
value, which is what `validated_data["text"]` yields.  (JSON floats do
not occur in this model; numbers are integers.) -/
def serializer_validate (body : Json) :
    Except (List (String × List String)) String :=
  match body with
  | .obj _ =>
      match body.jget "text" with
      | none => .error [("text", ["This field is required."])]
      | some data =>
          if isBlankInput data then
            .error [("text", ["This field may not be blank."])]
          else
            match data with
            | .null => .error [("text", ["This field may not be null."])]
            | .bool _ => .error [("text", ["Not a valid string."])]
            | .str s => run_length_validators (pyStrip s)
            | .num n => run_length_validators (pyStrip (toString n))
            | _ => .error [("text", ["Not a valid string."])]
  | _ => .error [("non_field_errors", ["Invalid data."])]

/-- The serializer's `errors` dict as the 400 response body. -/
def errorsJson (errs : List (String × List String)) : Json :=
  .obj (errs.map (fun p => (p.1, .arr (p.2.map Json.str))))

/-- `{"detail": msg}` response body. -/
def detailJson (msg : String) : Json :=
  .obj [("detail", .str msg)]

/-- `CommentSerializer` output for a 201 response (`created_at` not
modelled). -/
def commentJson (c : Comment) : Json :=
  .obj [("id", .num c.pk), ("post", .num c.post_pk),
        ("instagram_comment_id", c.instagram_comment_id),
        ("text", .str c.text)]

/-- What the view run produces: an HTTP response, or an exception the
view does not catch (escaping the handler). -/
inductive ViewResult where
  | response (status_code : Nat) (body : Json)
  | unhandled (e : PyError)
deriving Repr

/-- Result of one `CommentCreateView.post` run: the response or escaped
exception, the database after the run, and whether the orchestration
service and the remote adapter were invoked. -/
structure ViewOutcome where
  result : ViewResult
  db : DB
  serviceCalled : Bool
  remoteCalled : Bool
deriving Repr

/-- `CommentCreateView.post`: validate the payload (400 on failure,
before the service is constructed or invoked); then delegate to
`CommentService.create_comment` and map `PostNotFoundError` and
`MediaNotFoundError` to 404, any other `InstagramAPIError` to 502 with
the `Instagram API error: ` prefix, and success to 201 with the
serialized comment.  Exceptions outside those three clauses (e.g. the
`KeyError` of an id-less success body) are not caught. -/
def view_post (db : DB) (net : NetworkResult) (post_id : Nat) (body : Json) :
    ViewOutcome :=
  match serializer_validate body with
  | .error errs =>
      { result := .response 400 (errorsJson errs), db := db,
        serviceCalled := false, remoteCalled := false }
  | .ok text =>
      let out := service_create_comment db net post_id text
      { db := out.db, serviceCalled := true, remoteCalled := out.remoteCalled,
        result :=
          match out.result with
          | .error (.postNotFound msg) => .response 404 (detailJson msg)
          | .error (.mediaNotFound msg _) => .response 404 (detailJson msg)
          | .error (.apiError msg _) =>
              .response 502 (detailJson ("Instagram API error: " ++ msg))
          | .error (.keyError k) => .unhandled (.keyError k)
          | .ok comment => .response 201 (commentJson comment) }

/-- A process environment, and `os.environ.get`. -/
def envGet (env : List (String × String)) (k : String) : Option String :=
  (env.find? (fun p => p.1 == k)).map Prod.snd

/-- The two Instagram settings in `config/settings.py`. -/
structure Settings where
  INSTAGRAM_ACCESS_TOKEN : String
  INSTAGRAM_API_BASE_URL : String
deriving Repr

/-- `config/settings.py` lines 69–71, evaluated against a process
environment: the access token is `os.environ.get('INSTAGRAM_ACCESS_TOKEN', '')`;
the base URL is the literal string constant in the module. -/
def settingsOf (env : List (String × String)) : Settings :=
  { INSTAGRAM_ACCESS_TOKEN := (envGet env "INSTAGRAM_ACCESS_TOKEN").getD "",
    INSTAGRAM_API_BASE_URL := "https://graph.facebook.com/v18.0" }

/-- The adapter's constructor state: the credential and base URL it will
use for every request. -/
structure InstagramClient where
  access_token : String
  base_url : String
deriving Repr

/-- `InstagramClient.__init__`: `access_token or settings.INSTAGRAM_ACCESS_TOKEN`
(Python falsiness: `None` or the empty string fall back to settings) and
`settings.INSTAGRAM_API_BASE_URL`. -/
def clientInit (access_token : Option String) (s : Settings) : InstagramClient :=
  { access_token :=
      match access_token with
      | some t => if t = "" then s.INSTAGRAM_ACCESS_TOKEN else t
      | none => s.INSTAGRAM_ACCESS_TOKEN,
    base_url := s.INSTAGRAM_API_BASE_URL }

/-- The outbound request `InstagramClient.create_comment` builds:
`POST {base_url}/{media_id}/comments` with the message and the access
credential in the payload. -/
structure IGRequest where
  url : String
  message : String
  access_token : String
deriving Repr

/-- The url and payload construction of `InstagramClient.create_comment`. -/
def buildCommentRequest (c : InstagramClient) (media_id message : String) :
    IGRequest :=
  { url := c.base_url ++ "/" ++ media_id ++ "/comments",
    message := message, access_token := c.access_token }

/-! ### Concrete fixtures used by witnesses and counterexamples -/

/-- A post row mirroring the test fixture (`_make_post`). -/
def postOne : Post := { pk := 1, instagram_id := "M1", caption := "Test caption" }

/-- A store holding exactly `postOne` and no comments. -/
def dbOne : DB := { posts := [postOne], comments := [], next_comment_pk := 1 }

/-- A 200 response carrying the given JSON body. -/
def okBody (j : Json) : NetworkResult :=
  .resp { status_code := 200, text := "", json := some j }

/-- A run of 2200 copies of the letter a (`Char.ofNat 97`). -/
def longText : String := String.mk (List.replicate 2200 (Char.ofNat 97))

/-- `longText` with one trailing space: raw length 2201, but stripped
length 2200. -/
def paddedText : String := longText ++ " "

/-- A run of 2201 copies of the letter a: over the limit even after
stripping. -/
def overText : String := String.mk (List.replicate 2201 (Char.ofNat 97))

/-! ### Claims -/

/-- C1: for every `post_id` referring to an existing `Post` and every text
of length 1–2200, if the adapter call succeeds with a response containing
`id`, then `create_comment` persists exactly one new `Comment` whose post
reference is the looked-up `Post`, whose text equals the input text, and
whose `instagram_comment_id` equals the id returned by the gateway, and
returns that `Comment`. -/
theorem create_comment_success_persists_one_row
    (db : DB) (net : NetworkResult) (post_id : Nat) (text : String)
    (post : Post) (d idv : Json)
    (hpost : findPost db post_id = some post)
    (hlen : 1 ≤ text.length ∧ text.length ≤ 2200)
    (hok : client_create_comment net post.instagram_id = .ok d)
    (hid : d.jget "id" = some idv) :
    ∃ c : Comment,
      (service_create_comment db net post_id text).result = .ok c ∧
      (service_create_comment db net post_id text).db.comments
        = db.comments ++ [c] ∧
      c.post_pk = post.pk ∧ c.text = text ∧ c.instagram_comment_id = idv := by
  refine ⟨{ pk := db.next_comment_pk, post_pk := post.pk,
            instagram_comment_id := idv, text := text }, ?_, ?_, rfl, rfl, rfl⟩ <;>
    simp [service_create_comment, hpost, hok, hid]

/-- Witness for C1 at the test fixture. -/
theorem create_comment_success_persists_one_row_w :
    ∃ c : Comment,
      (service_create_comment dbOne (okBody (.obj [("id", .str "C9")])) 1
          "Great photo!").result = .ok c ∧
      (service_create_comment dbOne (okBody (.obj [("id", .str "C9")])) 1
          "Great photo!").db.comments = dbOne.comments ++ [c] ∧
      c.post_pk = postOne.pk ∧ c.text = "Great photo!" ∧
      c.instagram_comment_id = .str "C9" :=
  create_comment_success_persists_one_row dbOne (okBody (.obj [("id", .str "C9")]))
    1 "Great photo!" postOne (.obj [("id", .str "C9")]) (.str "C9")
    rfl (by decide) rfl rfl

/-- C2, counterexample: the adapter's publish call returns success (a 200
response with body `{}`, no `error` key), yet no `Comment` row is
written — `create_comment` dies on `api_response["id"]` first.  So "a
Comment record is written if and only if the adapter's publish call
returned success" fails in the only-if-to-if direction. -/
theorem comment_written_iff_success_cex :
    client_create_comment (okBody (.obj [])) "M1" = .ok (.obj []) ∧
    (service_create_comment dbOne (okBody (.obj [])) 1 "hi").db.comments
      = dbOne.comments ∧
    (service_create_comment dbOne (okBody (.obj [])) 1 "hi").result
      = .error (.keyError "id") :=
  ⟨rfl, rfl, rfl⟩

/-- C2, amended: a `Comment` row is written only if the adapter's publish
call returned success (and the success body carries `id`); on every error
path — post lookup miss, `MediaNotFoundError`, or any
`InstagramAPIError` — the error propagates unchanged to the caller and
the store is left with zero new `Comment` rows. -/
theorem comment_written_only_on_adapter_success
    (db : DB) (net : NetworkResult) (post_id : Nat) (text : String) :
    ((service_create_comment db net post_id text).db.comments ≠ db.comments →
      ∃ post d idv, findPost db post_id = some post ∧
        client_create_comment net post.instagram_id = .ok d ∧
        d.jget "id" = some idv) ∧
    (∀ post e, findPost db post_id = some post →
      client_create_comment net post.instagram_id = .error e →
      (service_create_comment db net post_id text).result = .error e ∧
      (service_create_comment db net post_id text).db = db) ∧
    (findPost db post_id = none →
      (service_create_comment db net post_id text).db = db) := by
  refine ⟨?_, ?_, ?_⟩
  · intro hne
    cases hpost : findPost db post_id with
    | none => exact (hne (by simp [service_create_comment, hpost])).elim
    | some post =>
      cases hcl : client_create_comment net post.instagram_id with
      | error e =>
          exact (hne (by simp [service_create_comment, hpost, hcl])).elim
      | ok d =>
        cases hid : d.jget "id" with
        | none =>
            exact (hne (by simp [service_create_comment, hpost, hcl, hid])).elim
        | some idv => exact ⟨post, d, idv, by simp [hpost], hcl, hid⟩
  · intro post e hpost hcl
    constructor <;> simp [service_create_comment, hpost, hcl]
  · intro hpost
    simp [service_create_comment, hpost]

/-- Witness for C2's amended theorem: a network failure propagates
unchanged and the store is untouched. -/
theorem comment_written_only_on_adapter_success_w :
    (service_create_comment dbOne (.exn "boom") 1 "hi").result
      = .error (.apiError "Network error while calling Instagram API: boom"
          (.num 0)) ∧
    (service_create_comment dbOne (.exn "boom") 1 "hi").db = dbOne :=
  (comment_written_only_on_adapter_success dbOne (.exn "boom") 1 "hi").2.1
    postOne (.apiError "Network error while calling Instagram API: boom" (.num 0))
    rfl rfl

/-- C3: for a `post_id` absent from the store, `create_comment` fails with
`PostNotFoundError`, without invoking the adapter and without writing any
`Comment` row, and the boundary translates the failure into a 404
response. -/
theorem post_not_found_terminal
    (db : DB) (net : NetworkResult) (post_id : Nat) (body : Json)
    (text : String)
    (hpost : findPost db post_id = none)
    (hval : serializer_validate body = .ok text) :
    (service_create_comment db net post_id text).result
      = .error (.postNotFound s!"Post with id={post_id} not found") ∧
    (service_create_comment db net post_id text).remoteCalled = false ∧
    (service_create_comment db net post_id text).db = db ∧
    (view_post db net post_id body).result
      = .response 404 (detailJson s!"Post with id={post_id} not found") ∧
    (view_post db net post_id body).remoteCalled = false ∧
    (view_post db net post_id body).db = db := by
  refine ⟨?_, ?_, ?_, ?_, ?_, ?_⟩ <;>
    simp [service_create_comment, view_post, hpost, hval]

/-- Witness for C3: store holding only post 1, requested post 2. -/
theorem post_not_found_terminal_w :
    (service_create_comment dbOne (okBody (.obj [("id", .str "C9")])) 2
        "Hello").result = .error (.postNotFound "Post with id=2 not found") ∧
    (view_post dbOne (okBody (.obj [("id", .str "C9")])) 2
        (.obj [("text", .str "Hello")])).result
      = .response 404 (detailJson "Post with id=2 not found") ∧
    (view_post dbOne (okBody (.obj [("id", .str "C9")])) 2
        (.obj [("text", .str "Hello")])).remoteCalled = false := by
  have h := post_not_found_terminal dbOne (okBody (.obj [("id", .str "C9")])) 2
    (.obj [("text", .str "Hello")]) "Hello" rfl rfl
  exact ⟨h.1, h.2.2.2.1, h.2.2.2.2.1⟩

/-- The parsed error object `data.get("error", {})` of `_handle_response`. -/
def errorObj (data : Json) : Json :=
  (data.jget "error").getD (.obj [])

/-- The effective error code `error.get("code", response.status_code)`. -/
def effectiveCode (data : Json) (status : Int) : Json :=
  ((errorObj data).jget "code").getD (.num status)

/-- The effective subcode `error.get("error_subcode", 0)`. -/
def effectiveSubcode (data : Json) : Json :=
  ((errorObj data).jget "error_subcode").getD (.num 0)

/-- C4, counterexample: a response whose parsed error object does NOT
have code 100 (it has no `code` field at all, only `error_subcode: 33`)
still makes the adapter raise `MediaNotFoundError`, because the missing
`code` defaults to the HTTP status code, here 100.  So "for any other
code/subcode combination the adapter never raises MediaNotFoundError" is
false as stated. -/
theorem media_not_found_defaulted_code_cex :
    Json.jget (.obj [("error_subcode", .num 33)]) "code" = none ∧
    handle_response
        { status_code := 100, text := "",
          json := some (.obj [("error", .obj [("error_subcode", .num 33)])]) }
        "M1"
      = .error (.mediaNotFound "Instagram media \x27M1\x27 was not found" 404) :=
  ⟨rfl, rfl⟩

/-- C4, amended: inside the error branch, a missing `code` defaults to
the HTTP status code and a missing `error_subcode` defaults to 0; the
adapter raises `MediaNotFoundError` (with 404 severity) exactly when
these effective values equal 100 and 33 — in particular whenever the
parsed error object literally carries code 100 and subcode 33 — and the
boundary maps `MediaNotFoundError` to a 404 response with zero new
`Comment` rows. -/
theorem media_not_found_classification
    (r : HttpResponse) (media_id : String) (data : Json)
    (db : DB) (net : NetworkResult) (post_id : Nat) (body : Json)
    (text msg : String) (post : Post)
    (hjson : r.json = some data)
    (hbranch : (!r.ok || data.hasKey "error") = true) :
    (handle_response r media_id
        = .error (.mediaNotFound
            ("Instagram media \x27" ++ media_id ++ "\x27 was not found") 404)
      ↔ (pyEqInt (effectiveCode data r.status_code) 100
         && pyEqInt (effectiveSubcode data) 33) = true) ∧
    (∀ e, handle_response r media_id = .error e →
      (∃ m, e = .mediaNotFound m 404) ∨ ∃ m c, e = .apiError m c) ∧
    (serializer_validate body = .ok text →
      findPost db post_id = some post →
      client_create_comment net post.instagram_id
        = .error (.mediaNotFound msg 404) →
      (view_post db net post_id body).result = .response 404 (detailJson msg) ∧
      (view_post db net post_id body).db = db) := by
  refine ⟨?_, ?_, ?_⟩
  · simp only [effectiveCode, effectiveSubcode, errorObj]
    by_cases hc : (pyEqInt (((data.jget "error").getD (.obj [])).jget "code"
          |>.getD (.num r.status_code)) 100
        && pyEqInt (((data.jget "error").getD (.obj [])).jget "error_subcode"
          |>.getD (.num 0)) 33) = true
    · simp only [handle_response, hjson, hbranch, if_true]
      simp [hc]
    · simp only [handle_response, hjson, hbranch, if_true]
      simp [hc]
  · intro e he
    simp only [handle_response, hjson, hbranch, if_true] at he
    split at he
    · exact Or.inl ⟨_, by simpa using he.symm⟩
    · exact Or.inr ⟨_, _, by simpa using he.symm⟩
  · intro hval hpost hcl
    constructor <;> simp [view_post, service_create_comment, hval, hpost, hcl]

/-- Witness for C4's amended theorem: the literal
`{error: {code: 100, error_subcode: 33}}` body yields
`MediaNotFoundError` and a 404 at the boundary with no new rows. -/
theorem media_not_found_classification_w :
    handle_response
        { status_code := 200, text := "",
          json := some (.obj [("error",
            .obj [("code", .num 100), ("error_subcode", .num 33)])]) }
        "M1"
      = .error (.mediaNotFound "Instagram media \x27M1\x27 was not found" 404) ∧
    (view_post dbOne
        (okBody (.obj [("error",
          .obj [("code", .num 100), ("error_subcode", .num 33)])]))
        1 (.obj [("text", .str "hi")])).result
      = .response 404 (detailJson "Instagram media \x27M1\x27 was not found") ∧
    (view_post dbOne
        (okBody (.obj [("error",
          .obj [("code", .num 100), ("error_subcode", .num 33)])]))
        1 (.obj [("text", .str "hi")])).db = dbOne := by
  have h := media_not_found_classification
    { status_code := 200, text := "",
      json := some (.obj [("error",
        .obj [("code", .num 100), ("error_subcode", .num 33)])]) }
    "M1"
    (.obj [("error", .obj [("code", .num 100), ("error_subcode", .num 33)])])
    dbOne
    (okBody (.obj [("error",
      .obj [("code", .num 100), ("error_subcode", .num 33)])]))
    1 (.obj [("text", .str "hi")]) "hi"
    "Instagram media \x27M1\x27 was not found" postOne rfl rfl
  have h1 := h.1.mpr rfl
  have h3 := h.2.2 rfl rfl h1
  exact ⟨h1, h3.1, h3.2⟩

/-- C5: response handling returns the parsed body if and only if the HTTP
response is well-formed JSON, the transport status is ok, and the body
contains no `error` key; since the `error` key is inspected regardless of
the transport status, an HTTP-200 response carrying an error object is
never treated as success.  (Stated for dict-shaped bodies, the Graph
API's documented response shape, which is what Python's `"error" in data`
presupposes.) -/
theorem handle_response_success_characterisation
    (r : HttpResponse) (media_id : String)
    (hdict : ∀ d, r.json = some d → ∃ fs, d = .obj fs) :
    ((∃ d, handle_response r media_id = .ok d) ↔
      ∃ d, r.json = some d ∧ r.ok = true ∧ d.hasKey "error" = false) ∧
    (∀ d, handle_response r media_id = .ok d → r.json = some d) ∧
    (∀ d, r.json = some d → r.status_code = 200 → d.hasKey "error" = true →
      ∃ e, handle_response r media_id = .error e ∧ e.isInstagramAPIError = true) := by
  refine ⟨?_, ?_, ?_⟩
  · cases hjson : r.json with
    | none =>
        constructor
        · rintro ⟨d, hd⟩
          simp [handle_response, hjson] at hd
        · rintro ⟨d, hd, _⟩
          simp [hjson] at hd
    | some data =>
        constructor
        · rintro ⟨d, hd⟩
          simp only [handle_response, hjson] at hd
          split at hd
          · split at hd <;> simp at hd
          · rename_i hcond
            refine ⟨data, rfl, ?_, ?_⟩
            · cases hok : r.ok with
              | false => simp [hok] at hcond
              | true => rfl
            · cases hkey : data.hasKey "error" with
              | false => rfl
              | true => simp [hkey] at hcond
        · rintro ⟨d, hd, hok, hkey⟩
          obtain rfl : data = d := by injection hd
          exact ⟨data, by simp [handle_response, hjson, hok, hkey]⟩
  · intro d hd
    cases hjson : r.json with
    | none => simp [handle_response, hjson] at hd
    | some data =>
        simp only [handle_response, hjson] at hd
        split at hd
        · split at hd <;> simp at hd
        · obtain rfl : data = d := by injection hd
          simp [hjson]
  · intro d hjson hstatus hkey
    simp only [handle_response, hjson, hkey, Bool.or_true, if_true]
    split
    · exact ⟨_, rfl, rfl⟩
    · exact ⟨_, rfl, rfl⟩

/-- Witness for C5: a 200 response with an error body is rejected; a 200
response with a clean body is accepted. -/
theorem handle_response_success_characterisation_w :
    (∃ e, handle_response
        { status_code := 200, text := "",
          json := some (.obj [("error", .obj [("message", .str "boom")])]) }
        "M1" = .error e ∧ e.isInstagramAPIError = true) ∧
    (∃ d, handle_response
        { status_code := 200, text := "",
          json := some (.obj [("id", .str "C9")]) } "M1" = .ok d) := by
  constructor
  · exact (handle_response_success_characterisation
      { status_code := 200, text := "",
        json := some (.obj [("error", .obj [("message", .str "boom")])]) }
      "M1" (by rintro d ⟨rfl⟩; exact ⟨_, rfl⟩)).2.2
      (.obj [("error", .obj [("message", .str "boom")])]) rfl rfl rfl
  · exact (handle_response_success_characterisation
      { status_code := 200, text := "",
        json := some (.obj [("id", .str "C9")]) }
      "M1" (by rintro d ⟨rfl⟩; exact ⟨_, rfl⟩)).1.mpr
      ⟨.obj [("id", .str "C9")], rfl, rfl, rfl⟩

/-- C6: every adapter failure other than `MediaNotFoundError` — the
generic `InstagramAPIError`, into which network failures and non-JSON
bodies are subsumed with the default (no-remote) status code — is mapped
by the boundary to a 502 response whose `detail` is
`Instagram API error: ` followed by the error message, with zero new
`Comment` rows. -/
theorem generic_api_error_maps_to_bad_gateway
    (db : DB) (net : NetworkResult) (post_id : Nat) (body : Json)
    (text msg : String) (code : Json) (post : Post)
    (hval : serializer_validate body = .ok text)
    (hpost : findPost db post_id = some post)
    (herr : client_create_comment net post.instagram_id
      = .error (.apiError msg code)) :
    (view_post db net post_id body).result
      = .response 502 (detailJson ("Instagram API error: " ++ msg)) ∧
    (view_post db net post_id body).db = db ∧
    (∀ m media, client_create_comment (.exn m) media
      = .error (.apiError ("Network error while calling Instagram API: " ++ m)
          (.num 0))) ∧
    (∀ (r2 : HttpResponse) (media : String), r2.json = none →
      ∃ m2, handle_response r2 media = .error (.apiError m2 (.num 0))) := by
  refine ⟨?_, ?_, fun m media => rfl, ?_⟩
  · simp [view_post, service_create_comment, hval, hpost, herr]
  · simp [view_post, service_create_comment, hval, hpost, herr]
  · intro r2 media hj
    refine ⟨"Invalid JSON response from Instagram API (status="
      ++ toString r2.status_code ++ ")", ?_⟩
    simp only [handle_response, hj]
    rfl

/-- Witness for C6: a remote error body with code 10 yields a 502 with
the prefixed detail and an unchanged store. -/
theorem generic_api_error_maps_to_bad_gateway_w :
    (view_post dbOne
        (okBody (.obj [("error",
          .obj [("code", .num 10), ("message", .str "perm")])]))
        1 (.obj [("text", .str "hi")])).result
      = .response 502 (detailJson "Instagram API error: perm") ∧
    (view_post dbOne
        (okBody (.obj [("error",
          .obj [("code", .num 10), ("message", .str "perm")])]))
        1 (.obj [("text", .str "hi")])).db = dbOne := by
  have h := generic_api_error_maps_to_bad_gateway dbOne
    (okBody (.obj [("error", .obj [("code", .num 10), ("message", .str "perm")])]))
    1 (.obj [("text", .str "hi")]) "hi" "perm" (.num 10) postOne rfl rfl rfl
  exact ⟨h.1, h.2.1⟩

/-- Dropping leading whitespace from a run of the letter a is the
identity: the first character already fails the whitespace test. -/
theorem dropWhile_ws_replicate (n : Nat) :
    List.dropWhile Char.isWhitespace (List.replicate n (Char.ofNat 97))
      = List.replicate n (Char.ofNat 97) := by
  cases n with
  | zero => rfl
  | succ m =>
      rw [List.replicate_succ, List.dropWhile_cons]
      simp [show Char.isWhitespace (Char.ofNat 97) = false by decide]

/-- Stripping a run of the letter a is the identity. -/
theorem pyStrip_replicate (n : Nat) :
    pyStrip (String.mk (List.replicate n (Char.ofNat 97)))
      = String.mk (List.replicate n (Char.ofNat 97)) := by
  simp [pyStrip, dropWhile_ws_replicate, List.reverse_replicate]

/-- `paddedText` strips to `longText`: only the trailing space goes. -/
theorem pyStrip_padded : pyStrip paddedText = longText := by
  have dropA : ∀ l : List Char,
      List.dropWhile Char.isWhitespace (Char.ofNat 97 :: l)
        = Char.ofNat 97 :: l := by
    intro l
    rw [List.dropWhile_cons]
    simp [show Char.isWhitespace (Char.ofNat 97) = false by decide]
  have hdata : paddedText.data
      = Char.ofNat 97 :: (List.replicate 2199 (Char.ofNat 97) ++ [' ']) := rfl
  have hrev : (Char.ofNat 97 :: (List.replicate 2199 (Char.ofNat 97)
        ++ [' '])).reverse
      = ' ' :: List.replicate 2200 (Char.ofNat 97) := by
    have hpad : Char.ofNat 97 :: (List.replicate 2199 (Char.ofNat 97) ++ [' '])
        = List.replicate 2200 (Char.ofNat 97) ++ [' '] := rfl
    rw [hpad, List.reverse_append, List.reverse_replicate]
    rfl
  simp only [pyStrip, hdata, dropA, hrev]
  rw [List.dropWhile_cons]
  simp only [show Char.isWhitespace ' ' = true by decide, if_true]
  rw [dropWhile_ws_replicate, List.reverse_replicate]
  rfl

/-- `longText` has length 2200. -/
theorem longText_length : longText.length = 2200 := by
  show (List.replicate 2200 (Char.ofNat 97)).length = 2200
  rw [List.length_replicate]

/-- `paddedText` has raw length 2201. -/
theorem paddedText_length : paddedText.length = 2201 := by
  show (Char.ofNat 97 :: (List.replicate 2199 (Char.ofNat 97)
    ++ [' '])).length = 2201
  rw [List.length_cons, List.length_append, List.length_replicate]
  decide

/-- `overText` has length 2201. -/
theorem overText_length : overText.length = 2201 := by
  show (List.replicate 2201 (Char.ofNat 97)).length = 2201
  rw [List.length_replicate]

/-- `longText` is not the empty string. -/
theorem longText_ne_empty : longText ≠ "" := by
  intro h
  have hlen := congrArg String.length h
  rw [longText_length] at hlen
  exact absurd hlen (by decide)

/-- `paddedText` is not the empty string. -/
theorem paddedText_ne_empty : paddedText ≠ "" := by
  intro h
  have hlen := congrArg String.length h
  rw [paddedText_length] at hlen
  exact absurd hlen (by decide)

/-- `paddedText` — raw length 2201 — passes the serializer: the length
validators run on the stripped value of length 2200, and
`validated_data["text"]` is the stripped text. -/
theorem serializer_accepts_padded :
    serializer_validate (.obj [("text", .str paddedText)]) = .ok longText := by
  have hget : (Json.obj [("text", .str paddedText)]).jget "text"
      = some (.str paddedText) := rfl
  have hblank : isBlankInput (.str paddedText) = false := by
    simp [isBlankInput, paddedText_ne_empty, pyStrip_padded, longText_ne_empty]
  simp only [serializer_validate, hget, hblank, Bool.false_eq_true, if_false,
    pyStrip_padded]
  simp [run_length_validators, longText_length]

/-- C7, counterexample: `{"text": " "}` has text of length 1 yet the
boundary rejects it with 400 (`CharField`'s blank check strips it to
empty) without invoking the service, and `{"text": paddedText}` has text
of raw length 2201 > 2200 yet passes validation and the service is
invoked (the length validators run on the stripped value).  Both the
"length 1–2200 passes" and the "longer than 2200 is rejected before any
remote call" parts of the claim fail as stated. -/
theorem text_length_validation_cex :
    (" " : String).length = 1 ∧
    (view_post dbOne (okBody (.obj [("id", .str "C9")])) 1
        (.obj [("text", .str " ")])).result
      = .response 400 (errorsJson [("text", ["This field may not be blank."])]) ∧
    (view_post dbOne (okBody (.obj [("id", .str "C9")])) 1
        (.obj [("text", .str " ")])).serviceCalled = false ∧
    paddedText.length = 2201 ∧
    serializer_validate (.obj [("text", .str paddedText)]) = .ok longText ∧
    (view_post dbOne (okBody (.obj [("id", .str "C9")])) 1
        (.obj [("text", .str paddedText)])).serviceCalled = true := by
  refine ⟨by decide, ?_, ?_, paddedText_length, serializer_accepts_padded, ?_⟩
  · rfl
  · rfl
  · simp [view_post, serializer_accepts_padded]

/-- C7, amended: a request whose `text` is absent, or whose text strips
to the empty string (empty or whitespace-only), or whose stripped text
is longer than 2200 characters, gets a 400 response with per-field
validation detail, the orchestration service never invoked, no remote
call, and zero new `Comment` rows; a string text whose stripped length
is 1 to 2200 passes validation, yielding the stripped text. -/
theorem boundary_validates_trimmed_text_length
    (db : DB) (net : NetworkResult) (post_id : Nat) :
    (∀ fields : List (String × Json), (Json.obj fields).jget "text" = none →
      (view_post db net post_id (.obj fields)).result
        = .response 400 (errorsJson [("text", ["This field is required."])]) ∧
      (view_post db net post_id (.obj fields)).serviceCalled = false ∧
      (view_post db net post_id (.obj fields)).remoteCalled = false ∧
      (view_post db net post_id (.obj fields)).db = db) ∧
    (∀ (fields : List (String × Json)) (s : String),
      (Json.obj fields).jget "text" = some (.str s) →
      pyStrip s = "" →
      (view_post db net post_id (.obj fields)).result
        = .response 400
            (errorsJson [("text", ["This field may not be blank."])]) ∧
      (view_post db net post_id (.obj fields)).serviceCalled = false ∧
      (view_post db net post_id (.obj fields)).remoteCalled = false ∧
      (view_post db net post_id (.obj fields)).db = db) ∧
    (∀ (fields : List (String × Json)) (s : String),
      (Json.obj fields).jget "text" = some (.str s) →
      2200 < (pyStrip s).length →
      (view_post db net post_id (.obj fields)).result
        = .response 400 (errorsJson [("text",
            ["Ensure this field has no more than 2200 characters."])]) ∧
      (view_post db net post_id (.obj fields)).serviceCalled = false ∧
      (view_post db net post_id (.obj fields)).remoteCalled = false ∧
      (view_post db net post_id (.obj fields)).db = db) ∧
    (∀ (fields : List (String × Json)) (s : String),
      (Json.obj fields).jget "text" = some (.str s) →
      1 ≤ (pyStrip s).length → (pyStrip s).length ≤ 2200 →
      serializer_validate (.obj fields) = .ok (pyStrip s)) := by
  refine ⟨?_, ?_, ?_, ?_⟩
  · intro fields htext
    refine ⟨?_, ?_, ?_, ?_⟩ <;> simp [view_post, serializer_validate, htext]
  · intro fields s htext hblank
    have hb : isBlankInput (.str s) = true := by
      simp [isBlankInput, hblank]
    refine ⟨?_, ?_, ?_, ?_⟩ <;>
      simp [view_post, serializer_validate, htext, hb]
  · intro fields s htext hlong
    have hst : pyStrip s ≠ "" := by
      intro h
      rw [h] at hlong
      exact absurd hlong (by decide)
    have hs : s ≠ "" := by
      intro h
      rw [h] at hlong
      exact absurd hlong (by decide)
    have hb : isBlankInput (.str s) = false := by
      simp [isBlankInput, hs, hst]
    have hlt : ¬ (pyStrip s).length < 1 := by omega
    refine ⟨?_, ?_, ?_, ?_⟩ <;>
      simp [view_post, serializer_validate, htext, hb, run_length_validators,
        hlt, hlong]
  · intro fields s htext h1 h2
    have hst : pyStrip s ≠ "" := by
      intro h
      rw [h] at h1
      exact absurd h1 (by decide)
    have hs : s ≠ "" := by
      intro h
      rw [h] at h1
      exact absurd h1 (by decide)
    have hb : isBlankInput (.str s) = false := by
      simp [isBlankInput, hs, hst]
    have hlt : ¬ (pyStrip s).length < 1 := by omega
    have hmax : ¬ 2200 < (pyStrip s).length := by omega
    simp [serializer_validate, htext, hb, run_length_validators, hlt, hmax]

/-- Witness for C7's amended theorem: absent text, whitespace-only text,
a 2201-letter text (over the limit even stripped), and a 12-character
text. -/
theorem boundary_validates_trimmed_text_length_w :
    (view_post dbOne (okBody (.obj [("id", .str "C9")])) 1 (.obj [])).result
      = .response 400 (errorsJson [("text", ["This field is required."])]) ∧
    (view_post dbOne (okBody (.obj [("id", .str "C9")])) 1
        (.obj [("text", .str "  ")])).result
      = .response 400 (errorsJson [("text", ["This field may not be blank."])]) ∧
    (view_post dbOne (okBody (.obj [("id", .str "C9")])) 1
        (.obj [("text", .str overText)])).result
      = .response 400 (errorsJson [("text",
          ["Ensure this field has no more than 2200 characters."])]) ∧
    (view_post dbOne (okBody (.obj [("id", .str "C9")])) 1
        (.obj [("text", .str overText)])).serviceCalled = false ∧
    serializer_validate (.obj [("text", .str "Great photo!")])
      = .ok "Great photo!" := by
  have hstripover : pyStrip overText = overText := pyStrip_replicate 2201
  have hover : 2200 < (pyStrip overText).length := by
    rw [hstripover, overText_length]
    omega
  have h := boundary_validates_trimmed_text_length dbOne
    (okBody (.obj [("id", .str "C9")])) 1
  have h1 := h.1 [] rfl
  have h2 := h.2.1 [("text", .str "  ")] "  " rfl (by decide)
  have h3 := h.2.2.1 [("text", .str overText)] overText rfl hover
  have h4 := h.2.2.2 [("text", .str "Great photo!")] "Great photo!" rfl
    (by decide) (by decide)
  rw [show pyStrip "Great photo!" = "Great photo!" from rfl] at h4
  exact ⟨h1.1, h2.1, h3.1, h3.2.1, h4⟩

/-- C8: `create_comment` is not idempotent: for a fixed `post_id` and
text, two successful invocations (each with a successful remote publish)
persist two distinct `Comment` rows — distinct primary keys — each
recording the remote id returned by its own gateway call, with no
deduplication of identical inputs. -/
theorem create_comment_not_idempotent
    (db : DB) (post_id : Nat) (text : String) (post : Post)
    (net1 net2 : NetworkResult) (d1 d2 id1 id2 : Json)
    (hpost : findPost db post_id = some post)
    (h1 : client_create_comment net1 post.instagram_id = .ok d1)
    (hid1 : d1.jget "id" = some id1)
    (h2 : client_create_comment net2 post.instagram_id = .ok d2)
    (hid2 : d2.jget "id" = some id2) :
    ∃ c1 c2 : Comment,
      (service_create_comment db net1 post_id text).result = .ok c1 ∧
      (service_create_comment
          (service_create_comment db net1 post_id text).db net2 post_id
          text).result = .ok c2 ∧
      (service_create_comment
          (service_create_comment db net1 post_id text).db net2 post_id
          text).db.comments = db.comments ++ [c1, c2] ∧
      c1.pk ≠ c2.pk ∧
      c1.instagram_comment_id = id1 ∧ c2.instagram_comment_id = id2 ∧
      c1.text = text ∧ c2.text = text := by
  have hstep1 : service_create_comment db net1 post_id text
      = ServiceOutcome.mk
          (.ok (Comment.mk db.next_comment_pk post.pk id1 text))
          (DB.mk db.posts
            (db.comments ++ [Comment.mk db.next_comment_pk post.pk id1 text])
            (db.next_comment_pk + 1))
          true := by
    simp [service_create_comment, hpost, h1, hid1]
  have hfind2 : findPost
      (DB.mk db.posts
        (db.comments ++ [Comment.mk db.next_comment_pk post.pk id1 text])
        (db.next_comment_pk + 1)) post_id = some post := hpost
  have hstep2 : service_create_comment
      (DB.mk db.posts
        (db.comments ++ [Comment.mk db.next_comment_pk post.pk id1 text])
        (db.next_comment_pk + 1)) net2 post_id text
      = ServiceOutcome.mk
          (.ok (Comment.mk (db.next_comment_pk + 1) post.pk id2 text))
          (DB.mk db.posts
            ((db.comments ++ [Comment.mk db.next_comment_pk post.pk id1 text])
              ++ [Comment.mk (db.next_comment_pk + 1) post.pk id2 text])
            (db.next_comment_pk + 1 + 1))
          true := by
    simp [service_create_comment, hfind2, h2, hid2]
  refine ⟨Comment.mk db.next_comment_pk post.pk id1 text,
          Comment.mk (db.next_comment_pk + 1) post.pk id2 text,
          ?_, ?_, ?_,
          show db.next_comment_pk ≠ db.next_comment_pk + 1 by omega,
          rfl, rfl, rfl, rfl⟩
  · rw [hstep1]
  · rw [hstep1, hstep2]
  · rw [hstep1, hstep2]
    simp

/-- Witness for C8: two publishes of the same text against the fixture
store leave exactly the two rows with remote ids C1 and C2. -/
theorem create_comment_not_idempotent_w :
    ∃ c1 c2 : Comment,
      (service_create_comment dbOne (okBody (.obj [("id", .str "R1")])) 1
          "hi").result = .ok c1 ∧
      (service_create_comment
          (service_create_comment dbOne (okBody (.obj [("id", .str "R1")])) 1
            "hi").db
          (okBody (.obj [("id", .str "R2")])) 1 "hi").result = .ok c2 ∧
      (service_create_comment
          (service_create_comment dbOne (okBody (.obj [("id", .str "R1")])) 1
            "hi").db
          (okBody (.obj [("id", .str "R2")])) 1 "hi").db.comments
        = dbOne.comments ++ [c1, c2] ∧
      c1.pk ≠ c2.pk ∧
      c1.instagram_comment_id = .str "R1" ∧
      c2.instagram_comment_id = .str "R2" :=
  match create_comment_not_idempotent dbOne 1 "hi" postOne
      (okBody (.obj [("id", .str "R1")])) (okBody (.obj [("id", .str "R2")]))
      (.obj [("id", .str "R1")]) (.obj [("id", .str "R2")])
      (.str "R1") (.str "R2") rfl rfl rfl rfl rfl with
  | ⟨c1, c2, ha, hb, hc, hd, he, hf, _, _⟩ => ⟨c1, c2, ha, hb, hc, hd, he, hf⟩

/-- C9, counterexample: the API base URL is not sourced from the process
environment — the settings module evaluates it to the same hard-coded
literal under any environment, here one that explicitly binds a base-URL
variable to a different value. -/
theorem base_url_hard_coded_cex :
    (settingsOf [("INSTAGRAM_API_BASE_URL", "http://example.test")]
      ).INSTAGRAM_API_BASE_URL = "https://graph.facebook.com/v18.0" ∧
    (settingsOf [("INSTAGRAM_API_BASE_URL", "http://example.test")]
      ).INSTAGRAM_API_BASE_URL ≠ "http://example.test" ∧
    (settingsOf []).INSTAGRAM_API_BASE_URL
      = (settingsOf [("INSTAGRAM_API_BASE_URL", "http://example.test")]
          ).INSTAGRAM_API_BASE_URL := by
  refine ⟨rfl, ?_, rfl⟩
  decide

/-- C9, amended: of the two configuration values the adapter consumes,
the access credential is sourced from the process environment
(`INSTAGRAM_ACCESS_TOKEN`, default empty string) while the API base URL
is a hard-coded constant in the settings module; the adapter reads both
from settings rather than hard-coding them inline. -/
theorem config_sourcing (env : List (String × String)) (v : String) :
    (envGet env "INSTAGRAM_ACCESS_TOKEN" = some v →
      (settingsOf env).INSTAGRAM_ACCESS_TOKEN = v) ∧
    (envGet env "INSTAGRAM_ACCESS_TOKEN" = none →
      (settingsOf env).INSTAGRAM_ACCESS_TOKEN = "") ∧
    (settingsOf env).INSTAGRAM_API_BASE_URL
      = "https://graph.facebook.com/v18.0" ∧
    (clientInit none (settingsOf env)).access_token
      = (settingsOf env).INSTAGRAM_ACCESS_TOKEN ∧
    (clientInit none (settingsOf env)).base_url
      = (settingsOf env).INSTAGRAM_API_BASE_URL ∧
    (∀ media message : String,
      (buildCommentRequest (clientInit none (settingsOf env)) media message).url
        = (settingsOf env).INSTAGRAM_API_BASE_URL ++ "/" ++ media
          ++ "/comments" ∧
      (buildCommentRequest (clientInit none (settingsOf env)) media
          message).access_token
        = (settingsOf env).INSTAGRAM_ACCESS_TOKEN) := by
  refine ⟨?_, ?_, rfl, rfl, rfl, fun media message => ⟨rfl, rfl⟩⟩
  · intro h
    simp [settingsOf, h]
  · intro h
    simp [settingsOf, h]

/-- Witness for C9's amended theorem at a concrete environment. -/
theorem config_sourcing_w :
    (settingsOf [("INSTAGRAM_ACCESS_TOKEN", "tok")]).INSTAGRAM_ACCESS_TOKEN
      = "tok" ∧
    (settingsOf [("INSTAGRAM_ACCESS_TOKEN", "tok")]).INSTAGRAM_API_BASE_URL
      = "https://graph.facebook.com/v18.0" :=
  ⟨(config_sourcing [("INSTAGRAM_ACCESS_TOKEN", "tok")] "tok").1 rfl,
   (config_sourcing [("INSTAGRAM_ACCESS_TOKEN", "tok")] "tok").2.2.1⟩

/-- C10: when the adapter's publish call succeeds but the response body
lacks an `id` key, `create_comment` raises a `KeyError`, which is outside
the `InstagramAPIError` taxonomy and is not mapped by the boundary (the
exception escapes the view); no `Comment` row is written.  The unguarded
`api_response["id"]` lookup succeeds exactly when the success body
carries `id`. -/
theorem missing_id_key_raises_keyerror
    (db : DB) (net : NetworkResult) (post_id : Nat) (body : Json)
    (text : String) (post : Post) (d : Json)
    (hval : serializer_validate body = .ok text)
    (hpost : findPost db post_id = some post)
    (hok : client_create_comment net post.instagram_id = .ok d)
    (hid : d.jget "id" = none) :
    (service_create_comment db net post_id text).result
      = .error (.keyError "id") ∧
    (PyError.keyError "id").isInstagramAPIError = false ∧
    (view_post db net post_id body).result = .unhandled (.keyError "id") ∧
    (view_post db net post_id body).db = db := by
  refine ⟨?_, rfl, ?_, ?_⟩ <;>
    simp [view_post, service_create_comment, hval, hpost, hok, hid]

/-- Witness for C10: a 200 success body `{}` makes the `KeyError` escape
the boundary unmapped, with the store untouched. -/
theorem missing_id_key_raises_keyerror_w :
    (service_create_comment dbOne (okBody (.obj [])) 1 "hi").result
      = .error (.keyError "id") ∧
    (view_post dbOne (okBody (.obj [])) 1 (.obj [("text", .str "hi")])).result
      = .unhandled (.keyError "id") ∧
    (view_post dbOne (okBody (.obj [])) 1 (.obj [("text", .str "hi")])).db
      = dbOne := by
  have h := missing_id_key_raises_keyerror dbOne (okBody (.obj [])) 1
    (.obj [("text", .str "hi")]) "hi" postOne (.obj []) rfl rfl rfl rfl
  exact ⟨h.1, h.2.2.1, h.2.2.2⟩

end InstagramProject
